import Mathlib

/-!
Verification of emmy's EC Pedersen commitments and partial (OR) EC discrete-log
proofs against their specification.

The elliptic-curve group is modelled as an abstract commutative group `G`
(multiplicative notation) with a distinguished base point `g : G` and subgroup
order `q : ℕ`; where a fact needs the group to have exponent dividing `q` it is
taken as the hypothesis `∀ x : G, x ^ q = 1`.  Scalars (Go `big.Int` values,
non-negative throughout the protocols) are modelled as `ℕ`, except where the Go
code compares a possibly negative input against `0`, where `ℤ` is used.
Go pointer fields that may be `nil` are modelled as `Option`; an operation whose
Go body dereferences such a field returns an `Option` result (`none` models the
nil-pointer panic) or a dedicated result constructor.
-/

namespace Emmy

section Defs

variable {G : Type} [CommGroup G] [DecidableEq G]

/-- EC points are abstract group elements; a `types.ECTriple` holds
(x, a, b) in fields (A, B, C), as read off `verifyTriple`'s accesses. -/
structure ECTriple (G : Type) where
  A : G
  B : G
  C : G
deriving DecidableEq

/-- `commitments.PedersenECCommitter`: fields `h`, `committedValue`, `r`
are nil until set, hence `Option`. -/
structure PedersenECCommitter (G : Type) where
  h : Option G
  committedValue : Option ℕ
  r : Option ℕ
deriving DecidableEq

/-- `commitments.NewPedersenECCommitter`: all pointer fields start nil. -/
def NewPedersenECCommitter (G : Type) : PedersenECCommitter G :=
  { h := none, committedValue := none, r := none }

/-- `PedersenECCommitter.SetH`. -/
def SetH (com : PedersenECCommitter G) (h : G) : PedersenECCommitter G :=
  { com with h := some h }

/-- Outcome of `GetCommitMsg`: a commitment together with the updated
committer, the error return, or a nil-pointer dereference of `h`
(which in Go happens after `r` and the value have been stored). -/
inductive CommitResult (G : Type) where
  | ok (com : PedersenECCommitter G) (c : G)
  | err (msg : String)
  | nilPanic (com : PedersenECCommitter G)
deriving DecidableEq

/-- Discriminator: did `GetCommitMsg` return through its error path? -/
def CommitResult.isErr {G : Type} : CommitResult G → Bool
  | .err _ => true
  | _ => false

/-- `PedersenECCommitter.GetCommitMsg`.  The Go check is
`val.Cmp(order) == 1 || val.Cmp(big.NewInt(0)) == -1`, i.e. it rejects only
`val > q` or `val < 0`.  On the non-error path it stores the sampled `r` and
the value, then dereferences `h` (panicking when `h` is nil) and returns
`c = g^val * h^r`.  The random scalar is passed in explicitly. -/
def GetCommitMsg (g : G) (q : ℕ) (val : ℤ) (rSample : ℕ)
    (com : PedersenECCommitter G) : CommitResult G :=
  if (q : ℤ) < val ∨ val < 0 then
    .err "the committed value needs to be in Z_q (order of a base point)"
  else
    let com' : PedersenECCommitter G :=
      { com with r := some rSample, committedValue := some val.toNat }
    match com'.h with
    | none => .nilPanic com'
    | some h => .ok com' (g ^ val.toNat * h ^ rSample)

/-- `PedersenECCommitter.GetDecommitMsg`: returns the stored value and `r`. -/
def GetDecommitMsg (com : PedersenECCommitter G) : Option ℕ × Option ℕ :=
  (com.committedValue, com.r)

/-- `PedersenECCommitter.VerifyTrapdoor`: compares `g^trapdoor` with the stored
`h` on both coordinates; dereferences `h`. -/
def VerifyTrapdoor (g : G) (com : PedersenECCommitter G) (trapdoor : ℕ) :
    Option Bool :=
  match com.h with
  | none => none
  | some h => some (decide (g ^ trapdoor = h))

/-- `commitments.PedersenECReceiver`: `a` and `h` are set by the constructor,
`commitment` is nil until `SetCommitment`. -/
structure PedersenECReceiver (G : Type) where
  a : ℕ
  h : G
  commitment : Option G
deriving DecidableEq

/-- `commitments.NewPedersenECReceiver` with the sampled trapdoor passed in:
stores `a` and `h = g^a`. -/
def NewPedersenECReceiver (g : G) (aSample : ℕ) : PedersenECReceiver G :=
  { a := aSample, h := g ^ aSample, commitment := none }

/-- `PedersenECReceiver.GetH`. -/
def GetH (s : PedersenECReceiver G) : G := s.h

/-- `PedersenECReceiver.GetTrapdoor`. -/
def GetTrapdoor (s : PedersenECReceiver G) : ℕ := s.a

/-- `PedersenECReceiver.SetCommitment`. -/
def SetCommitment (s : PedersenECReceiver G) (el : G) : PedersenECReceiver G :=
  { s with commitment := some el }

/-- `PedersenECReceiver.CheckDecommitment`: recomputes `g^val * h^r` and
compares with the stored commitment on both coordinates; dereferences the
stored commitment (nil before `SetCommitment`). -/
def CheckDecommitment (g : G) (s : PedersenECReceiver G) (r val : ℕ) :
    Option Bool :=
  match s.commitment with
  | none => none
  | some c => some (decide (g ^ val * s.h ^ r = c))

/-- `CheckDecommitment` as a method call returning the receiver object as
well: the Go body assigns no field of `s`, so the state passes through. -/
def CheckDecommitmentM (g : G) (s : PedersenECReceiver G) (r val : ℕ) :
    Option Bool × PedersenECReceiver G :=
  (CheckDecommitment g s r val, s)

/-- `dlogproofs.PartialECDLogProver` after `GetProofRandomData` has stored the
secret, the two bases and the sampled `r1`, `c2`, `z2` and ordering bit
(`false` models `ord = 0`). -/
structure PartialECDLogProver (G : Type) where
  secret1 : ℕ
  a1 : G
  a2 : G
  r1 : ℕ
  c2 : ℕ
  z2 : ℕ
  ord : Bool
deriving DecidableEq

/-- `PartialECDLogProver.GetProofRandomData` with the sampled scalars and
ordering bit passed in: computes `x1 = a1^r1`, `x2 = a2^z2 * (b2^c2)⁻¹`,
stores the samples, and returns the two triples in an order decided by
`ord`. -/
def GetProofRandomData (secret1 : ℕ) (a1 b1 a2 b2 : G) (r1 c2 z2 : ℕ)
    (ord : Bool) : PartialECDLogProver G × ECTriple G × ECTriple G :=
  let x1 := a1 ^ r1
  let x2 := a2 ^ z2 * (b2 ^ c2)⁻¹
  let triple1 : ECTriple G := ⟨x1, a1, b1⟩
  let triple2 : ECTriple G := ⟨x2, a2, b2⟩
  let prover : PartialECDLogProver G :=
    { secret1 := secret1, a1 := a1, a2 := a2, r1 := r1, c2 := c2, z2 := z2,
      ord := ord }
  if ord = false then (prover, triple1, triple2) else (prover, triple2, triple1)

/-- `PartialECDLogProver.GetProofData`: `c1 = c2 XOR challenge`,
`z1 = (c1 * secret1 + r1) mod q`, returned in the order fixed by `ord`. -/
def GetProofData (q : ℕ) (p : PartialECDLogProver G) (challenge : ℕ) :
    ℕ × ℕ × ℕ × ℕ :=
  let c1 := p.c2 ^^^ challenge
  let z1 := (c1 * p.secret1 + p.r1) % q
  if p.ord = false then (c1, z1, p.c2, p.z2) else (p.c2, p.z2, c1, z1)

/-- `dlogproofs.PartialECDLogVerifier`: the triples and the challenge are nil
until `SetProofRandomData` and `GetChallenge` store them. -/
structure PartialECDLogVerifier (G : Type) where
  triple1 : Option (ECTriple G)
  triple2 : Option (ECTriple G)
  challenge : Option ℕ
deriving DecidableEq

/-- `dlogproofs.NewPartialECDLogVerifier`: all pointer fields start nil. -/
def NewPartialECDLogVerifier (G : Type) : PartialECDLogVerifier G :=
  { triple1 := none, triple2 := none, challenge := none }

/-- `PartialECDLogVerifier.SetProofRandomData`. -/
def SetProofRandomData (v : PartialECDLogVerifier G) (t1 t2 : ECTriple G) :
    PartialECDLogVerifier G :=
  { v with triple1 := some t1, triple2 := some t2 }

/-- `PartialECDLogVerifier.GetChallenge` with the sampled challenge passed in:
stores and returns it. -/
def GetChallenge (v : PartialECDLogVerifier G) (sample : ℕ) :
    ℕ × PartialECDLogVerifier G :=
  (sample, { v with challenge := some sample })

/-- `PartialECDLogVerifier.verifyTriple`: checks `B^z = C^challenge * A`,
i.e. `a^z = b^challenge * x`, comparing both coordinates. -/
def verifyTriple (t : ECTriple G) (challenge z : ℕ) : Bool :=
  decide (t.B ^ z = t.C ^ challenge * t.A)

/-- `PartialECDLogVerifier.Verify`: first compares `c1 XOR c2` with the stored
challenge (dereferencing it), returning `false` on mismatch before the triples
are touched; otherwise checks both stored triples (dereferencing them). -/
def Verify (v : PartialECDLogVerifier G) (c1 z1 c2 z2 : ℕ) : Option Bool :=
  match v.challenge with
  | none => none
  | some ch =>
    if (c1 ^^^ c2) ≠ ch then some false
    else
      match v.triple1, v.triple2 with
      | some t1, some t2 =>
          some (verifyTriple t1 c1 z1 && verifyTriple t2 c2 z2)
      | _, _ => none

/-- `Verify` as a method call returning the verifier object as well: the Go
body assigns no field of `v`, so the state passes through. -/
def VerifyM (v : PartialECDLogVerifier G) (c1 z1 c2 z2 : ℕ) :
    Option Bool × PartialECDLogVerifier G :=
  (Verify v c1 z1 c2 z2, v)

/-- `dlogproofs.ProvePartialECDLogKnowledge` with all sampled randomness
passed in: computes `b1 = a1^secret1`, runs the honest prover and verifier
through `GetProofRandomData`, `SetProofRandomData`, `GetChallenge`,
`GetProofData` and `Verify`, and returns the verification outcome. -/
def ProvePartialECDLogKnowledge (q : ℕ) (secret1 : ℕ) (a1 a2 b2 : G)
    (r1 c2 z2 : ℕ) (ord : Bool) (e : ℕ) : Option Bool :=
  let b1 := a1 ^ secret1
  let pr := GetProofRandomData secret1 a1 b1 a2 b2 r1 c2 z2 ord
  let ver := SetProofRandomData (NewPartialECDLogVerifier G) pr.2.1 pr.2.2
  let ch := GetChallenge ver e
  let pd := GetProofData q pr.1 ch.1
  Verify ch.2 pd.1 pd.2.1 pd.2.2.1 pd.2.2.2

end Defs

/-- Concrete group used for witnesses: the cyclic group of order 5,
written multiplicatively. -/
abbrev Gc : Type := Multiplicative (ZMod 5)

/-- A concrete base point for witnesses. -/
def gc : Gc := Multiplicative.ofAdd (1 : ZMod 5)

/-- A second concrete point. -/
def gc2 : Gc := Multiplicative.ofAdd (2 : ZMod 5)

/-- A third concrete point. -/
def gc3 : Gc := Multiplicative.ofAdd (3 : ZMod 5)

/-- A fourth concrete point. -/
def gc4 : Gc := Multiplicative.ofAdd (4 : ZMod 5)

/-- In a group whose exponent divides `q`, exponents reduce mod `q`; this is
the internal reduction the EC group performs on scalars outside `[0, q)`. -/
theorem pow_mod_eq {G : Type} [Monoid G] (q : ℕ) (hq : ∀ x : G, x ^ q = 1)
    (a : G) (m : ℕ) : a ^ (m % q) = a ^ m := by
  conv_rhs => rw [← Nat.div_add_mod m q]
  rw [pow_add, pow_mul, hq, one_pow, one_mul]

/-- C1: Completeness of the partial (OR) proof: for every secret `x1` and
group elements `a1, a2, b2`, with `b1 = a1^x1`, an honest run composed by
`ProvePartialECDLogKnowledge` returns `true` for both values of the prover's
ordering bit and all sampled `r1, c2, z2, e` in `[0, q)`. -/
theorem orProof_completeness {G : Type} [CommGroup G] [DecidableEq G] (q : ℕ)
    (hq : ∀ x : G, x ^ q = 1) (secret1 : ℕ) (a1 a2 b2 : G) (r1 c2 z2 e : ℕ)
    (hr : r1 < q) (hc : c2 < q) (hz : z2 < q) (he : e < q) (ord : Bool) :
    ProvePartialECDLogKnowledge q secret1 a1 a2 b2 r1 c2 z2 ord e
      = some true := by
  have hx1 : ∀ c1 : ℕ,
      a1 ^ ((c1 * secret1 + r1) % q) = (a1 ^ secret1) ^ c1 * a1 ^ r1 := by
    intro c1
    rw [pow_mod_eq q hq, pow_add, ← pow_mul, Nat.mul_comm c1 secret1]
  have hx2 : a2 ^ z2 = b2 ^ c2 * (a2 ^ z2 * (b2 ^ c2)⁻¹) := by
    rw [mul_comm (a2 ^ z2), ← mul_assoc, mul_inv_cancel, one_mul]
  cases ord with
  | false =>
    simp only [ProvePartialECDLogKnowledge, GetProofRandomData,
      SetProofRandomData, NewPartialECDLogVerifier, GetChallenge, GetProofData,
      Verify, verifyTriple, if_true, if_false, Bool.false_eq_true, ite_false,
      ite_true]
    rw [Nat.xor_comm c2 e, Nat.xor_cancel_right]
    simp only [ne_eq, not_true_eq_false, ite_false, if_neg,
      Option.some_inj, Bool.and_eq_true, decide_eq_true_eq]
    exact ⟨hx1 (e ^^^ c2), hx2⟩
  | true =>
    simp only [ProvePartialECDLogKnowledge, GetProofRandomData,
      SetProofRandomData, NewPartialECDLogVerifier, GetChallenge, GetProofData,
      Verify, verifyTriple, if_true, if_false, Bool.true_eq_false, ite_false,
      ite_true]
    rw [Nat.xor_cancel_left]
    simp only [ne_eq, not_true_eq_false, ite_false, if_neg,
      Option.some_inj, Bool.and_eq_true, decide_eq_true_eq]
    exact ⟨hx2, hx1 (c2 ^^^ e)⟩

/-- C1 witness: a concrete honest run in the cyclic group of order 5 with
secret 3, bases `g^2, g^3`, `b2 = g^4`, samples `r1 = 2, c2 = 1, z2 = 4`,
challenge `e = 3`, for both ordering bits. -/
theorem orProof_completeness_witness :
    (∀ x : Gc, x ^ 5 = 1) ∧ 2 < 5 ∧ 1 < 5 ∧ 4 < 5 ∧ 3 < 5 ∧
    ProvePartialECDLogKnowledge (G := Gc) 5 3 gc2 gc3 gc4 2 1 4 false 3
      = some true ∧
    ProvePartialECDLogKnowledge (G := Gc) 5 3 gc2 gc3 gc4 2 1 4 true 3
      = some true :=
  ⟨by decide, by decide, by decide, by decide, by decide,
   orProof_completeness 5 (by decide) 3 gc2 gc3 gc4 2 1 4 3
     (by decide) (by decide) (by decide) (by decide) false,
   orProof_completeness 5 (by decide) 3 gc2 gc3 gc4 2 1 4 3
     (by decide) (by decide) (by decide) (by decide) true⟩

/-- C2: Challenge-XOR law: in an honestly generated transcript, the XOR of the
two per-branch challenges returned by `GetProofData` (first and third
component) equals the verifier's challenge `e`, for either ordering bit, which
is exactly the verifier's XOR consistency check in `Verify`. -/
theorem orProof_challenge_xor {G : Type} [CommGroup G] [DecidableEq G]
    (q secret1 : ℕ) (a1 b1 a2 b2 : G) (r1 c2 z2 : ℕ) (ord : Bool) (e : ℕ) :
    (GetProofData q
        (GetProofRandomData secret1 a1 b1 a2 b2 r1 c2 z2 ord).1 e).1 ^^^
      (GetProofData q
        (GetProofRandomData secret1 a1 b1 a2 b2 r1 c2 z2 ord).1 e).2.2.1
      = e := by
  cases ord <;>
    simp only [GetProofRandomData, GetProofData, if_true, if_false,
      Bool.false_eq_true, Bool.true_eq_false, ite_false, ite_true] <;>
    [rw [Nat.xor_comm c2 e, Nat.xor_cancel_right];
     rw [Nat.xor_cancel_left]]

/-- C3: boundary behaviour of the range check in `GetCommitMsg`: at
`val = q` (here `q = 5`), the value is outside `Z_q = [0, q)` yet the code's
check `val > q || val < 0` does not fire — the call succeeds, stores the value
and returns the commitment `g^q * h^r`, contradicting the documented
constraint `0 ≤ v < q`. -/
theorem commitMsg_at_order_accepted :
    (GetCommitMsg (G := Gc) gc 5 (5 : ℤ) 2
        (SetH (NewPedersenECCommitter Gc) gc)).isErr = false ∧
    GetCommitMsg (G := Gc) gc 5 (5 : ℤ) 2 (SetH (NewPedersenECCommitter Gc) gc)
      = CommitResult.ok ⟨some gc, some 5, some 2⟩ (gc ^ 5 * gc ^ 2) := by
  decide

/-- C4: Pedersen commit/decommit round trip: with `h` set from the receiver's
`GetH`, committing to any `v ∈ [0, q)` with sampled `r ∈ [0, q)` succeeds and
stores `(v, r)`, `GetDecommitMsg` returns exactly that pair, the commitment is
`g^v * h^r`, and the receiver, after `SetCommitment`, accepts
`CheckDecommitment r v`. -/
theorem pedersen_roundtrip {G : Type} [CommGroup G] [DecidableEq G] (g : G)
    (q aSample v r : ℕ) (hv : v < q) (hr : r < q) :
    GetCommitMsg g q (v : ℤ) r
        (SetH (NewPedersenECCommitter G) (GetH (NewPedersenECReceiver g aSample)))
      = CommitResult.ok ⟨some (g ^ aSample), some v, some r⟩
          (g ^ v * (g ^ aSample) ^ r) ∧
    GetDecommitMsg (G := G) ⟨some (g ^ aSample), some v, some r⟩
      = (some v, some r) ∧
    CheckDecommitment g
        (SetCommitment (NewPedersenECReceiver g aSample)
          (g ^ v * (g ^ aSample) ^ r)) r v
      = some true := by
  have hcond : ¬ ((q : ℤ) < (v : ℤ) ∨ (v : ℤ) < 0) := by omega
  refine ⟨?_, rfl, ?_⟩
  · simp only [GetCommitMsg, SetH, NewPedersenECCommitter, GetH,
      NewPedersenECReceiver, if_neg hcond, Int.toNat_natCast]
  · simp only [CheckDecommitment, SetCommitment, NewPedersenECReceiver,
      decide_eq_true_eq, Option.some_inj]

/-- C4 witness: concrete round trip in the cyclic group of order 5 with
trapdoor sample 2, value 3, randomness 1. -/
theorem pedersen_roundtrip_witness :
    3 < 5 ∧ 1 < 5 ∧
    (GetCommitMsg gc 5 ((3 : ℕ) : ℤ) 1
        (SetH (NewPedersenECCommitter Gc) (GetH (NewPedersenECReceiver gc 2)))
      = CommitResult.ok ⟨some (gc ^ 2), some 3, some 1⟩
          (gc ^ 3 * (gc ^ 2) ^ 1) ∧
     GetDecommitMsg (G := Gc) ⟨some (gc ^ 2), some 3, some 1⟩
      = (some 3, some 1) ∧
     CheckDecommitment gc
        (SetCommitment (NewPedersenECReceiver gc 2) (gc ^ 3 * (gc ^ 2) ^ 1)) 1 3
      = some true) :=
  ⟨by decide, by decide,
   pedersen_roundtrip gc 5 2 3 1 (by decide) (by decide)⟩

/-- C5: with a stored commitment `c`, `CheckDecommitment r v` returns the
boolean `some (decide (g^v * h^r = c))` — in particular it returns `some true`
iff `g^v * h^r` equals the stored commitment, and a mismatch yields
`some false`, never a panic or error. -/
theorem checkDecommitment_iff {G : Type} [CommGroup G] [DecidableEq G] (g : G)
    (s : PedersenECReceiver G) (c : G) (hs : s.commitment = some c)
    (r v : ℕ) :
    CheckDecommitment g s r v = some (decide (g ^ v * s.h ^ r = c)) ∧
    (CheckDecommitment g s r v = some true ↔ g ^ v * s.h ^ r = c) := by
  constructor
  · simp only [CheckDecommitment, hs]
  · simp only [CheckDecommitment, hs, Option.some_inj, decide_eq_true_eq]

/-- C5 witness: a receiver storing the commitment `g^3` in the cyclic group of
order 5, opened with `(r, v) = (1, 2)`. -/
theorem checkDecommitment_iff_witness :
    (SetCommitment (NewPedersenECReceiver gc 2) gc3).commitment = some gc3 ∧
    (CheckDecommitment gc (SetCommitment (NewPedersenECReceiver gc 2) gc3) 1 2
      = some (decide
          (gc ^ 2 * (SetCommitment (NewPedersenECReceiver gc 2) gc3).h ^ 1
            = gc3)) ∧
     (CheckDecommitment gc (SetCommitment (NewPedersenECReceiver gc 2) gc3) 1 2
        = some true ↔
      gc ^ 2 * (SetCommitment (NewPedersenECReceiver gc 2) gc3).h ^ 1 = gc3)) :=
  ⟨rfl,
   checkDecommitment_iff gc (SetCommitment (NewPedersenECReceiver gc 2) gc3)
     gc3 rfl 1 2⟩

/-- C6 counterexample: calling `GetCommitMsg` with an in-range value on a
fresh committer (no `SetH`) does not return through the error path at all —
it stores `r` and the value and then dereferences the nil `h`, i.e. produces a
runtime nil-pointer panic rather than a `StateError`. -/
theorem commitMsg_without_h_counterexample :
    (GetCommitMsg (G := Gc) gc 5 (3 : ℤ) 2 (NewPedersenECCommitter Gc)).isErr
      = false ∧
    GetCommitMsg (G := Gc) gc 5 (3 : ℤ) 2 (NewPedersenECCommitter Gc)
      = CommitResult.nilPanic ⟨none, some 3, some 2⟩ := by
  decide

/-- C6 amended: for any in-range value, `GetCommitMsg` on a committer whose
`h` was never set passes the range check, stores the sampled `r` and the
value, and then hits the nil `h` dereference — a runtime panic, not a
returned `StateError`, and no commitment is produced. -/
theorem commitMsg_without_h_panics {G : Type} [CommGroup G] [DecidableEq G]
    (g : G) (q : ℕ) (val : ℤ) (r : ℕ) (h0 : 0 ≤ val) (h1 : val ≤ (q : ℤ)) :
    GetCommitMsg g q val r (NewPedersenECCommitter G)
      = CommitResult.nilPanic ⟨none, some val.toNat, some r⟩ := by
  have hcond : ¬ ((q : ℤ) < val ∨ val < 0) := by omega
  simp only [GetCommitMsg, NewPedersenECCommitter, if_neg hcond]

/-- C6 witness: the amended statement at the concrete input `val = 3`,
`r = 2`, `q = 5` in the cyclic group of order 5. -/
theorem commitMsg_without_h_panics_witness :
    (0 : ℤ) ≤ 3 ∧ (3 : ℤ) ≤ ((5 : ℕ) : ℤ) ∧
    GetCommitMsg gc 5 (3 : ℤ) 2 (NewPedersenECCommitter Gc)
      = CommitResult.nilPanic ⟨none, some (3 : ℤ).toNat, some 2⟩ :=
  ⟨by decide, by decide,
   commitMsg_without_h_panics gc 5 3 2 (by decide) (by decide)⟩

/-- `pb.PedersenDecommitment` wire message at scalar level: the server reuses
it for the Σ protocol's plain challenge. -/
structure PedersenDecommitmentMsg where
  X : ℕ
  R : ℕ
deriving DecidableEq

/-- `pb.SchnorrProofData` wire message at scalar level. -/
structure SchnorrProofDataMsg where
  Z : ℕ
  Trapdoor : ℕ
deriving DecidableEq

/-- `server.SchnorrEC`'s challenge reply: `r2` is the optional commitment
randomness from the verifier's `GetChallenge` (nil in the Σ protocol, per the
code's comment); when nil, `new(big.Int)` — the zero scalar — is placed in the
`R` field. -/
def schnorrECChallengeMsg (challenge : ℕ) (r2 : Option ℕ) :
    PedersenDecommitmentMsg :=
  { X := challenge, R := r2.getD 0 }

/-- `client.ObtainCertificate`'s proof-data message: this Σ-mode client always
sends `trapdoor := new(big.Int)`, the zero scalar. -/
def obtainCertificateProofDataMsg (z : ℕ) : SchnorrProofDataMsg :=
  { Z := z, Trapdoor := 0 }

/-- C7: in Σ mode the optional wire fields are zero: the server's challenge
message carries `R = 0` when `GetChallenge` returned no commitment randomness,
and the Σ-mode client's proof-data message carries `Trapdoor = 0`. -/
theorem sigma_mode_zero_optional_fields (challenge z : ℕ) :
    (schnorrECChallengeMsg challenge none).R = 0 ∧
    (obtainCertificateProofDataMsg z).Trapdoor = 0 :=
  ⟨rfl, rfl⟩

/-- C8: verification is idempotent and pure: the partial verifier's `Verify`
and the receiver's `CheckDecommitment`, as method calls, leave the verifier
and receiver objects unchanged, and a second call on the returned state gives
the same boolean. -/
theorem verify_checkDecommitment_idempotent_pure {G : Type} [CommGroup G]
    [DecidableEq G] (g : G) (v : PartialECDLogVerifier G) (c1 z1 c2 z2 : ℕ)
    (s : PedersenECReceiver G) (r val : ℕ) :
    (VerifyM v c1 z1 c2 z2).2 = v ∧
    (VerifyM (VerifyM v c1 z1 c2 z2).2 c1 z1 c2 z2).1
      = (VerifyM v c1 z1 c2 z2).1 ∧
    (CheckDecommitmentM g s r val).2 = s ∧
    (CheckDecommitmentM g (CheckDecommitmentM g s r val).2 r val).1
      = (CheckDecommitmentM g s r val).1 :=
  ⟨rfl, rfl, rfl, rfl⟩

/-- C9: receiver key invariant: a receiver built by `NewPedersenECReceiver`
has `GetH = g ^ GetTrapdoor`; the state-changing receiver operations
(`SetCommitment`, and `CheckDecommitment` as a method call) never change `h`
or the trapdoor `a`; and a committer whose `h` was set from this receiver
accepts `VerifyTrapdoor` on the receiver's trapdoor. -/
theorem receiver_key_invariant {G : Type} [CommGroup G] [DecidableEq G]
    (g : G) (aSample : ℕ) (el : G) (s : PedersenECReceiver G)
    (r val : ℕ) (com : PedersenECCommitter G) :
    GetH (NewPedersenECReceiver g aSample)
      = g ^ GetTrapdoor (NewPedersenECReceiver g aSample) ∧
    (SetCommitment s el).h = s.h ∧ (SetCommitment s el).a = s.a ∧
    (CheckDecommitmentM g s r val).2.h = s.h ∧
    (CheckDecommitmentM g s r val).2.a = s.a ∧
    VerifyTrapdoor g (SetH com (GetH (NewPedersenECReceiver g aSample)))
      (GetTrapdoor (NewPedersenECReceiver g aSample)) = some true := by
  refine ⟨rfl, rfl, rfl, rfl, rfl, ?_⟩
  simp [VerifyTrapdoor, SetH, GetH, GetTrapdoor, NewPedersenECReceiver]

/-- C10: totality of partial verification under call order: on any verifier
state in which `SetProofRandomData` and `GetChallenge` have each stored their
data (the three pointer fields are non-nil — which those two calls establish
and preserve, as also stated), `Verify` returns a boolean for all scalar
inputs; on the fresh verifier it instead hits the nil stored challenge. -/
theorem verify_totality {G : Type} [CommGroup G] [DecidableEq G]
    (v : PartialECDLogVerifier G) (t1 t2 : ECTriple G) (ch : ℕ)
    (h1 : v.triple1.isSome = true) (h2 : v.triple2.isSome = true)
    (h3 : v.challenge.isSome = true) (c1 z1 c2 z2 : ℕ) :
    (Verify v c1 z1 c2 z2).isSome = true ∧
    ((SetProofRandomData v t1 t2).triple1.isSome = true ∧
     (SetProofRandomData v t1 t2).triple2.isSome = true ∧
     (SetProofRandomData v t1 t2).challenge = v.challenge) ∧
    ((GetChallenge v ch).2.challenge.isSome = true ∧
     (GetChallenge v ch).2.triple1 = v.triple1 ∧
     (GetChallenge v ch).2.triple2 = v.triple2) ∧
    Verify (NewPartialECDLogVerifier G) c1 z1 c2 z2 = none := by
  refine ⟨?_, ⟨rfl, rfl, rfl⟩, ⟨rfl, rfl, rfl⟩, rfl⟩
  obtain ⟨x1, hx1⟩ := Option.isSome_iff_exists.mp h1
  obtain ⟨x2, hx2⟩ := Option.isSome_iff_exists.mp h2
  obtain ⟨e, he⟩ := Option.isSome_iff_exists.mp h3
  simp only [Verify, he, hx1, hx2]
  split <;> rfl

/-- C10 witness: concrete verifier state obtained by `SetProofRandomData` then
`GetChallenge` on a fresh verifier, with concrete triples over the cyclic
group of order 5 and arbitrary concrete proof-data scalars. -/
theorem verify_totality_witness :
    ((GetChallenge (SetProofRandomData (NewPartialECDLogVerifier Gc)
        ⟨gc, gc2, gc3⟩ ⟨gc2, gc3, gc4⟩) 3).2.triple1.isSome = true ∧
     (GetChallenge (SetProofRandomData (NewPartialECDLogVerifier Gc)
        ⟨gc, gc2, gc3⟩ ⟨gc2, gc3, gc4⟩) 3).2.triple2.isSome = true ∧
     (GetChallenge (SetProofRandomData (NewPartialECDLogVerifier Gc)
        ⟨gc, gc2, gc3⟩ ⟨gc2, gc3, gc4⟩) 3).2.challenge.isSome = true) ∧
    ((Verify (GetChallenge (SetProofRandomData (NewPartialECDLogVerifier Gc)
        ⟨gc, gc2, gc3⟩ ⟨gc2, gc3, gc4⟩) 3).2 1 2 3 4).isSome = true ∧
     ((SetProofRandomData (GetChallenge (SetProofRandomData
          (NewPartialECDLogVerifier Gc) ⟨gc, gc2, gc3⟩ ⟨gc2, gc3, gc4⟩) 3).2
        ⟨gc, gc2, gc3⟩ ⟨gc2, gc3, gc4⟩).triple1.isSome = true ∧
      (SetProofRandomData (GetChallenge (SetProofRandomData
          (NewPartialECDLogVerifier Gc) ⟨gc, gc2, gc3⟩ ⟨gc2, gc3, gc4⟩) 3).2
        ⟨gc, gc2, gc3⟩ ⟨gc2, gc3, gc4⟩).triple2.isSome = true ∧
      (SetProofRandomData (GetChallenge (SetProofRandomData
          (NewPartialECDLogVerifier Gc) ⟨gc, gc2, gc3⟩ ⟨gc2, gc3, gc4⟩) 3).2
        ⟨gc, gc2, gc3⟩ ⟨gc2, gc3, gc4⟩).challenge
        = (GetChallenge (SetProofRandomData (NewPartialECDLogVerifier Gc)
            ⟨gc, gc2, gc3⟩ ⟨gc2, gc3, gc4⟩) 3).2.challenge) ∧
     ((GetChallenge (GetChallenge (SetProofRandomData
          (NewPartialECDLogVerifier Gc) ⟨gc, gc2, gc3⟩ ⟨gc2, gc3, gc4⟩) 3).2
        7).2.challenge.isSome = true ∧
      (GetChallenge (GetChallenge (SetProofRandomData
          (NewPartialECDLogVerifier Gc) ⟨gc, gc2, gc3⟩ ⟨gc2, gc3, gc4⟩) 3).2
        7).2.triple1
        = (GetChallenge (SetProofRandomData (NewPartialECDLogVerifier Gc)
            ⟨gc, gc2, gc3⟩ ⟨gc2, gc3, gc4⟩) 3).2.triple1 ∧
      (GetChallenge (GetChallenge (SetProofRandomData
          (NewPartialECDLogVerifier Gc) ⟨gc, gc2, gc3⟩ ⟨gc2, gc3, gc4⟩) 3).2
        7).2.triple2
        = (GetChallenge (SetProofRandomData (NewPartialECDLogVerifier Gc)
            ⟨gc, gc2, gc3⟩ ⟨gc2, gc3, gc4⟩) 3).2.triple2) ∧
     Verify (NewPartialECDLogVerifier Gc) 1 2 3 4 = none) :=
  ⟨⟨rfl, rfl, rfl⟩,
   verify_totality
     (GetChallenge (SetProofRandomData (NewPartialECDLogVerifier Gc)
        ⟨gc, gc2, gc3⟩ ⟨gc2, gc3, gc4⟩) 3).2
     ⟨gc, gc2, gc3⟩ ⟨gc2, gc3, gc4⟩ 7 rfl rfl rfl 1 2 3 4⟩

end Emmy
